import Mathlib

/-!
# Verification of the Olarm home-automation integration

A shallow embedding of the Python sources in `custom_components/olarm/`
(`coordinator.py`, `alarm_control_panel.py`, `alarm_control_panel_old.py`,
`binary_sensor.py`, `button.py`) together with theorems about the embedded
functions.

Python runtime values (the JSON payloads the integration passes around) are
modelled by the inductive type `PyVal`; Python dictionaries by association
lists with string keys; operations that can raise (`[]` indexing, `.get` on a
non-dict, attribute lookup) return `Except PyErr`.
-/

/-- A Python runtime value as used by this integration: `None`, booleans,
integers, strings, lists, and string-keyed dictionaries (JSON data). -/
inductive PyVal where
  | none : PyVal
  | bool (b : Bool) : PyVal
  | int (n : Int) : PyVal
  | str (s : String) : PyVal
  | list (xs : List PyVal) : PyVal
  | dict (entries : List (String × PyVal)) : PyVal

/-- Python exceptions that the embedded code can raise. -/
inductive PyErr where
  | attributeError : PyErr
  | typeError : PyErr
  | indexError : PyErr
  | keyError : PyErr
deriving DecidableEq, Repr

/-- A Python dictionary with string keys (e.g. an MQTT payload or a device
JSON object). -/
abbrev PyDict := List (String × PyVal)

/-- Python structural equality `==` on the embedded values. Mirrors Python in
that `True == 1` and `False == 0` hold across `bool`/`int`. -/
def PyVal.eqb : PyVal → PyVal → Bool
  | .none, .none => true
  | .bool a, .bool b => a == b
  | .bool a, .int n => (if a then (1 : Int) else 0) == n
  | .int n, .bool a => n == (if a then (1 : Int) else 0)
  | .int m, .int n => m == n
  | .str s, .str t => s == t
  | .list [], .list [] => true
  | .list (x :: xs), .list (y :: ys) => x.eqb y && (PyVal.list xs).eqb (.list ys)
  | .dict [], .dict [] => true
  | .dict ((k, v) :: xs), .dict ((l, w) :: ys) =>
      k == l && v.eqb w && (PyVal.dict xs).eqb (.dict ys)
  | _, _ => false

/-- Python truthiness: `None`, `False`, `0`, `""`, `[]` and `{}` are falsy. -/
def PyVal.truthy : PyVal → Bool
  | .none => false
  | .bool b => b
  | .int n => n != 0
  | .str s => s != ""
  | .list xs => !xs.isEmpty
  | .dict es => !es.isEmpty

/-- Python `a or b`: returns `a` when `a` is truthy, otherwise `b`. -/
def pyOr (a b : PyVal) : PyVal :=
  if a.truthy then a else b

/-- Lookup in a raw dictionary (`d[k]` would raise `KeyError` when absent;
this is the underlying partial lookup). -/
def pyDictGet (es : PyDict) (k : String) : Option PyVal :=
  (es.find? (fun kv => kv.1 == k)).map Prod.snd

/-- Python `k in d` membership test on a dictionary. -/
def pyDictContains (es : PyDict) (k : String) : Bool :=
  (pyDictGet es k).isSome

/-- Python `d.get(k)` on a raw dictionary: `None` when the key is absent. -/
def pyDictGetOpt (es : PyDict) (k : String) : PyVal :=
  (pyDictGet es k).getD .none

/-- Python `d[k]` on a raw dictionary, used only under a `k in d` guard in
the source; absent keys yield `None` here (unreachable under the guard). -/
def pyDictItem (es : PyDict) (k : String) : PyVal :=
  (pyDictGet es k).getD .none

/-- Python `v.get(k, default)` on an arbitrary value: raises `TypeError`
unless `v` is a dictionary. -/
def PyVal.getD : PyVal → String → PyVal → Except PyErr PyVal
  | .dict es, k, dflt => .ok ((pyDictGet es k).getD dflt)
  | _, _, _ => .error .typeError

/-- Python `v.get(k)` on an arbitrary value (default `None`). -/
def PyVal.getOpt (v : PyVal) (k : String) : Except PyErr PyVal :=
  v.getD k .none

/-- Python `len(v)`: defined on strings, lists and dictionaries. -/
def pyLen : PyVal → Except PyErr Nat
  | .str s => .ok s.length
  | .list xs => .ok xs.length
  | .dict es => .ok es.length
  | _ => .error .typeError

/-- Python `v[i]` for a natural index: list indexing with an `IndexError`
bounds check, string indexing yielding a one-character string. -/
def pyIndex : PyVal → Nat → Except PyErr PyVal
  | .list xs, i =>
      if h : i < xs.length then .ok (xs.get ⟨i, h⟩) else .error .indexError
  | .str s, i =>
      if h : i < s.toList.length then .ok (.str (String.mk [s.toList.get ⟨i, h⟩]))
      else .error .indexError
  | _, _ => .error .typeError

/-!
## `coordinator.py`: the data model and the coordinator

`OlarmDeviceData` is the dataclass from `coordinator.py`. The Python type
annotations (`str`, `dict[str, Any]`) are unenforced hints; at runtime the
fields hold whatever values were assigned, so they are modelled as `PyVal`.
-/

/-- The `OlarmDeviceData` dataclass from `coordinator.py`: device name plus
six JSON dictionaries. -/
structure OlarmDeviceData where
  device_name : PyVal
  device_state : PyVal := .dict []
  device_links : PyVal := .dict []
  device_io : PyVal := .dict []
  device_profile : PyVal := .dict []
  device_profile_links : PyVal := .dict []
  device_profile_io : PyVal := .dict []

/-- The field names declared on the `OlarmDeviceData` dataclass. -/
def olarmDeviceDataFields : List String :=
  ["device_name", "device_state", "device_links", "device_io",
   "device_profile", "device_profile_links", "device_profile_io"]

/-- Python attribute access `data.<name>` on an `OlarmDeviceData` instance:
returns the field's value for a declared field and raises `AttributeError`
for any other name (the dataclass defines no other attributes). -/
def getattrDeviceData (d : OlarmDeviceData) : String → Except PyErr PyVal
  | "device_name" => .ok d.device_name
  | "device_state" => .ok d.device_state
  | "device_links" => .ok d.device_links
  | "device_io" => .ok d.device_io
  | "device_profile" => .ok d.device_profile
  | "device_profile_links" => .ok d.device_profile_links
  | "device_profile_io" => .ok d.device_profile_io
  | _ => .error .attributeError

/-- A call made to the external `OlarmFlowClient`, one constructor per client
method the coordinator invokes. -/
inductive ClientCall where
  | getDevice (device_id : String) : ClientCall
  | zoneBypass (device_id : String) (zone_num : Nat) : ClientCall
  | zoneUnbypass (device_id : String) (zone_num : Nat) : ClientCall
  | pgmOpen (device_id : String) (pgm_num : Nat) : ClientCall
  | pgmClose (device_id : String) (pgm_num : Nat) : ClientCall
  | pgmPulse (device_id : String) (pgm_num : Nat) : ClientCall
  | ukeyActivate (device_id : String) (ukey_num : Nat) : ClientCall
  | linkOutputOpen (device_id : String) (link_id : Option String) (output_num : Nat) : ClientCall
  | linkOutputClose (device_id : String) (link_id : Option String) (output_num : Nat) : ClientCall
  | linkOutputPulse (device_id : String) (link_id : Option String) (output_num : Nat) : ClientCall
  | linkRelayUnlatch (device_id : String) (link_id : Option String) (relay_num : Nat) : ClientCall
  | linkRelayLatch (device_id : String) (link_id : Option String) (relay_num : Nat) : ClientCall
  | linkRelayPulse (device_id : String) (link_id : Option String) (relay_num : Nat) : ClientCall
  | maxOutputOpen (device_id : String) (output_num : Nat) : ClientCall
  | maxOutputClose (device_id : String) (output_num : Nat) : ClientCall
  | maxOutputPulse (device_id : String) (output_num : Nat) : ClientCall
  | areaDisarm (device_id : String) (area_num : Nat) : ClientCall
  | areaArm (device_id : String) (area_num : Nat) : ClientCall
  | areaStay (device_id : String) (area_num : Nat) : ClientCall
  | areaSleep (device_id : String) (area_num : Nat) : ClientCall
deriving DecidableEq, Repr

/-- Whether a client call is the HTTP device fetch `get_device`. -/
def ClientCall.isGetDevice : ClientCall → Bool
  | .getDevice _ => true
  | _ => false

/-- The observable state of an `OlarmDataUpdateCoordinator`: the cached
device data, the log of data values pushed to subscribed entities via
`async_set_updated_data`, and the log of calls made to the API client. -/
structure Coordinator where
  data : Option OlarmDeviceData
  published : List OlarmDeviceData := []
  calls : List ClientCall := []

/-- The framework's `async_set_updated_data`: store the value as the
coordinator data and notify all subscribed entities of it. -/
def async_set_updated_data (c : Coordinator) (d : OlarmDeviceData) : Coordinator :=
  { c with data := some d, published := c.published ++ [d] }

/-- The `update_interval` the coordinator is constructed with
(`coordinator.py`, `__init__`): `None`, so the framework schedules no
periodic refresh. -/
def update_interval : Option Nat := Option.none

/-- The possible outcomes of the API client's `get_device` call as seen by
`_async_update_data`: a JSON device object, an `OlarmFlowClientApiError`, or
any other exception. -/
inductive FetchResult where
  | ok (device : PyDict) : FetchResult
  | apiError : FetchResult
  | otherError : FetchResult

/-- The outcome of `_async_update_data`: a fresh `OlarmDeviceData`, the host
framework's `UpdateFailed` signal, or an uncaught exception propagating. -/
inductive UpdateOutcome where
  | success (d : OlarmDeviceData) : UpdateOutcome
  | updateFailed : UpdateOutcome
  | uncaught : UpdateOutcome

/-- `OlarmDataUpdateCoordinator._async_update_data` from `coordinator.py`:
wraps `OlarmFlowClientApiError` in `UpdateFailed`, lets other exceptions
propagate, and on success builds an `OlarmDeviceData` where each field is the
corresponding JSON value `or` a default. -/
def async_update_data : FetchResult → UpdateOutcome
  | .apiError => .updateFailed
  | .otherError => .uncaught
  | .ok device =>
      .success
        { device_name := pyOr (pyDictGetOpt device "deviceName") (.str "Olarm Device")
          device_state := pyOr (pyDictGetOpt device "deviceState") (.dict [])
          device_links := pyOr (pyDictGetOpt device "deviceLinks") (.dict [])
          device_io := pyOr (pyDictGetOpt device "deviceIO") (.dict [])
          device_profile := pyOr (pyDictGetOpt device "deviceProfile") (.dict [])
          device_profile_links := pyOr (pyDictGetOpt device "deviceProfileLinks") (.dict [])
          device_profile_io := pyOr (pyDictGetOpt device "deviceProfileIO") (.dict []) }

/-- `OlarmDataUpdateCoordinator.async_update_from_mqtt` from
`coordinator.py`: return unchanged when no cached data exists, otherwise
overwrite `device_state` / `device_links` / `device_io` from the payload keys
`deviceState` / `deviceLinks` / `deviceIO` when present, and call
`async_set_updated_data` exactly when at least one of them was present. -/
def async_update_from_mqtt (c : Coordinator) (payload : PyDict) : Coordinator :=
  match c.data with
  | Option.none => c
  | some d =>
      let d := if pyDictContains payload "deviceState" then
                 { d with device_state := pyDictItem payload "deviceState" } else d
      let d := if pyDictContains payload "deviceLinks" then
                 { d with device_links := pyDictItem payload "deviceLinks" } else d
      let d := if pyDictContains payload "deviceIO" then
                 { d with device_io := pyDictItem payload "deviceIO" } else d
      let updated := pyDictContains payload "deviceState"
                  || pyDictContains payload "deviceLinks"
                  || pyDictContains payload "deviceIO"
      if updated then async_set_updated_data { c with data := some d } d
      else { c with data := some d }

/-- `send_zone_bypass`: delegate to the API client. -/
def Coordinator.send_zone_bypass (c : Coordinator) (device_id : String) (zone_num : Nat) : Coordinator :=
  { c with calls := c.calls ++ [.zoneBypass device_id zone_num] }

/-- `send_zone_unbypass`: delegate to the API client. -/
def Coordinator.send_zone_unbypass (c : Coordinator) (device_id : String) (zone_num : Nat) : Coordinator :=
  { c with calls := c.calls ++ [.zoneUnbypass device_id zone_num] }

/-- `send_pgm_open`: delegate to the API client. -/
def Coordinator.send_pgm_open (c : Coordinator) (device_id : String) (pgm_num : Nat) : Coordinator :=
  { c with calls := c.calls ++ [.pgmOpen device_id pgm_num] }

/-- `send_pgm_close`: delegate to the API client. -/
def Coordinator.send_pgm_close (c : Coordinator) (device_id : String) (pgm_num : Nat) : Coordinator :=
  { c with calls := c.calls ++ [.pgmClose device_id pgm_num] }

/-- `send_pgm_pulse`: delegate to the API client. -/
def Coordinator.send_pgm_pulse (c : Coordinator) (device_id : String) (pgm_num : Nat) : Coordinator :=
  { c with calls := c.calls ++ [.pgmPulse device_id pgm_num] }

/-- `send_ukey_activate`: delegate to the API client. -/
def Coordinator.send_ukey_activate (c : Coordinator) (device_id : String) (ukey_num : Nat) : Coordinator :=
  { c with calls := c.calls ++ [.ukeyActivate device_id ukey_num] }

/-- `send_link_output_open`: delegate to the API client. -/
def Coordinator.send_link_output_open (c : Coordinator) (device_id : String) (link_id : Option String) (output_num : Nat) : Coordinator :=
  { c with calls := c.calls ++ [.linkOutputOpen device_id link_id output_num] }

/-- `send_link_output_close`: delegate to the API client. -/
def Coordinator.send_link_output_close (c : Coordinator) (device_id : String) (link_id : Option String) (output_num : Nat) : Coordinator :=
  { c with calls := c.calls ++ [.linkOutputClose device_id link_id output_num] }

/-- `send_link_output_pulse`: delegate to the API client. -/
def Coordinator.send_link_output_pulse (c : Coordinator) (device_id : String) (link_id : Option String) (output_num : Nat) : Coordinator :=
  { c with calls := c.calls ++ [.linkOutputPulse device_id link_id output_num] }

/-- `send_link_relay_unlatch`: delegate to the API client. -/
def Coordinator.send_link_relay_unlatch (c : Coordinator) (device_id : String) (link_id : Option String) (relay_num : Nat) : Coordinator :=
  { c with calls := c.calls ++ [.linkRelayUnlatch device_id link_id relay_num] }

/-- `send_link_relay_latch`: delegate to the API client. -/
def Coordinator.send_link_relay_latch (c : Coordinator) (device_id : String) (link_id : Option String) (relay_num : Nat) : Coordinator :=
  { c with calls := c.calls ++ [.linkRelayLatch device_id link_id relay_num] }

/-- `send_link_relay_pulse`: delegate to the API client. -/
def Coordinator.send_link_relay_pulse (c : Coordinator) (device_id : String) (link_id : Option String) (relay_num : Nat) : Coordinator :=
  { c with calls := c.calls ++ [.linkRelayPulse device_id link_id relay_num] }

/-- `send_max_output_open`: delegate to the API client. -/
def Coordinator.send_max_output_open (c : Coordinator) (device_id : String) (output_num : Nat) : Coordinator :=
  { c with calls := c.calls ++ [.maxOutputOpen device_id output_num] }

/-- `send_max_output_close`: delegate to the API client. -/
def Coordinator.send_max_output_close (c : Coordinator) (device_id : String) (output_num : Nat) : Coordinator :=
  { c with calls := c.calls ++ [.maxOutputClose device_id output_num] }

/-- `send_max_output_pulse`: delegate to the API client. -/
def Coordinator.send_max_output_pulse (c : Coordinator) (device_id : String) (output_num : Nat) : Coordinator :=
  { c with calls := c.calls ++ [.maxOutputPulse device_id output_num] }

/-- `send_area_disarm`: delegate to the API client. -/
def Coordinator.send_area_disarm (c : Coordinator) (device_id : String) (area_num : Nat) : Coordinator :=
  { c with calls := c.calls ++ [.areaDisarm device_id area_num] }

/-- `send_area_arm`: delegate to the API client. -/
def Coordinator.send_area_arm (c : Coordinator) (device_id : String) (area_num : Nat) : Coordinator :=
  { c with calls := c.calls ++ [.areaArm device_id area_num] }

/-- `send_area_stay`: delegate to the API client. -/
def Coordinator.send_area_stay (c : Coordinator) (device_id : String) (area_num : Nat) : Coordinator :=
  { c with calls := c.calls ++ [.areaStay device_id area_num] }

/-- `send_area_sleep`: delegate to the API client. -/
def Coordinator.send_area_sleep (c : Coordinator) (device_id : String) (area_num : Nat) : Coordinator :=
  { c with calls := c.calls ++ [.areaSleep device_id area_num] }

/-- The method names defined in the `OlarmDataUpdateCoordinator` class body
in `coordinator.py`, plus the public attributes inherited from the host
framework's `DataUpdateCoordinator` base class that this integration uses.
No class in the repository (and none of the framework base classes) defines
a method named `send_command`. -/
def coordinatorMethodNames : List String :=
  ["__init__", "_async_update_data", "async_update_from_mqtt",
   "send_zone_bypass", "send_zone_unbypass",
   "send_pgm_open", "send_pgm_close", "send_pgm_pulse",
   "send_ukey_activate",
   "send_link_output_open", "send_link_output_close", "send_link_output_pulse",
   "send_link_relay_unlatch", "send_link_relay_latch", "send_link_relay_pulse",
   "send_max_output_open", "send_max_output_close", "send_max_output_pulse",
   "send_area_disarm", "send_area_arm", "send_area_stay", "send_area_sleep",
   "data", "device_id", "async_set_updated_data", "async_add_listener",
   "async_refresh", "async_config_entry_first_refresh"]

/-- Python attribute lookup `coordinator.<name>`: resolves when the class (or
its base) defines the attribute, otherwise raises `AttributeError`. The
resolved method is represented by its name. -/
def coordinatorGetattr (name : String) : Except PyErr String :=
  if name ∈ coordinatorMethodNames then .ok name else .error .attributeError

/-- The coordinator's public command surface (`send_*` methods), the
entry points the entity platforms may invoke after setup. -/
inductive CoordinatorCommand where
  | zone_bypass (device_id : String) (zone_num : Nat) : CoordinatorCommand
  | zone_unbypass (device_id : String) (zone_num : Nat) : CoordinatorCommand
  | pgm_open (device_id : String) (pgm_num : Nat) : CoordinatorCommand
  | pgm_close (device_id : String) (pgm_num : Nat) : CoordinatorCommand
  | pgm_pulse (device_id : String) (pgm_num : Nat) : CoordinatorCommand
  | ukey_activate (device_id : String) (ukey_num : Nat) : CoordinatorCommand
  | link_output_open (device_id : String) (link_id : Option String) (output_num : Nat) : CoordinatorCommand
  | link_output_close (device_id : String) (link_id : Option String) (output_num : Nat) : CoordinatorCommand
  | link_output_pulse (device_id : String) (link_id : Option String) (output_num : Nat) : CoordinatorCommand
  | link_relay_unlatch (device_id : String) (link_id : Option String) (relay_num : Nat) : CoordinatorCommand
  | link_relay_latch (device_id : String) (link_id : Option String) (relay_num : Nat) : CoordinatorCommand
  | link_relay_pulse (device_id : String) (link_id : Option String) (relay_num : Nat) : CoordinatorCommand
  | max_output_open (device_id : String) (output_num : Nat) : CoordinatorCommand
  | max_output_close (device_id : String) (output_num : Nat) : CoordinatorCommand
  | max_output_pulse (device_id : String) (output_num : Nat) : CoordinatorCommand
  | area_disarm (device_id : String) (area_num : Nat) : CoordinatorCommand
  | area_arm (device_id : String) (area_num : Nat) : CoordinatorCommand
  | area_stay (device_id : String) (area_num : Nat) : CoordinatorCommand
  | area_sleep (device_id : String) (area_num : Nat) : CoordinatorCommand

/-- Dispatch a `CoordinatorCommand` to the corresponding `send_*` method. -/
def runCommand (c : Coordinator) : CoordinatorCommand → Coordinator
  | .zone_bypass did n => c.send_zone_bypass did n
  | .zone_unbypass did n => c.send_zone_unbypass did n
  | .pgm_open did n => c.send_pgm_open did n
  | .pgm_close did n => c.send_pgm_close did n
  | .pgm_pulse did n => c.send_pgm_pulse did n
  | .ukey_activate did n => c.send_ukey_activate did n
  | .link_output_open did lid n => c.send_link_output_open did lid n
  | .link_output_close did lid n => c.send_link_output_close did lid n
  | .link_output_pulse did lid n => c.send_link_output_pulse did lid n
  | .link_relay_unlatch did lid n => c.send_link_relay_unlatch did lid n
  | .link_relay_latch did lid n => c.send_link_relay_latch did lid n
  | .link_relay_pulse did lid n => c.send_link_relay_pulse did lid n
  | .max_output_open did n => c.send_max_output_open did n
  | .max_output_close did n => c.send_max_output_close did n
  | .max_output_pulse did n => c.send_max_output_pulse did n
  | .area_disarm did n => c.send_area_disarm did n
  | .area_arm did n => c.send_area_arm did n
  | .area_stay did n => c.send_area_stay did n
  | .area_sleep did n => c.send_area_sleep did n

/-- Everything that can happen to the coordinator after the one-time setup
fetch: an incoming MQTT payload, or one of its command methods being invoked
by an entity. -/
inductive CoordinatorEvent where
  | mqttMessage (payload : PyDict) : CoordinatorEvent
  | command (cmd : CoordinatorCommand) : CoordinatorEvent

/-- Post-setup step semantics of the coordinator. -/
def coordinatorStep (c : Coordinator) : CoordinatorEvent → Coordinator
  | .mqttMessage payload => async_update_from_mqtt c payload
  | .command cmd => runCommand c cmd

/-- Run a sequence of post-setup events. -/
def coordinatorRun (c : Coordinator) (events : List CoordinatorEvent) : Coordinator :=
  events.foldl coordinatorStep c

/-- The number of HTTP device fetches in a coordinator's call log. -/
def fetchCount (c : Coordinator) : Nat :=
  c.calls.countP (fun call => call.isGetDevice)

/-!
## `alarm_control_panel.py`: the new area panels
-/

/-- The host framework's alarm-panel states. -/
inductive AlarmControlPanelState where
  | disarmed : AlarmControlPanelState
  | armed_home : AlarmControlPanelState
  | armed_away : AlarmControlPanelState
  | armed_night : AlarmControlPanelState
  | armed_custom_bypass : AlarmControlPanelState
  | pending : AlarmControlPanelState
  | triggered : AlarmControlPanelState
deriving DecidableEq, Repr

/-- `STATE_MAP` from `alarm_control_panel.py`: Olarm area states to platform
alarm states. -/
def STATE_MAP : List (String × AlarmControlPanelState) :=
  [("disarm", .disarmed),
   ("notready", .disarmed),
   ("stay", .armed_home),
   ("arm", .armed_away),
   ("sleep", .armed_night),
   ("alarm", .triggered),
   ("emergency", .triggered),
   ("fire", .triggered),
   ("medical", .triggered),
   ("partarm1", .armed_custom_bypass),
   ("partarm2", .armed_custom_bypass),
   ("partarm3", .armed_custom_bypass),
   ("partarm4", .armed_custom_bypass),
   ("stayarm1", .armed_home),
   ("stayarm2", .armed_home),
   ("stayarm3", .armed_home),
   ("stayarm4", .armed_home),
   ("entrydelay", .pending),
   ("customarm1", .armed_custom_bypass),
   ("customarm2", .armed_custom_bypass),
   ("customarm3", .armed_custom_bypass),
   ("customarm4", .armed_custom_bypass)]

/-- Python `STATE_MAP.get(area_state, AlarmControlPanelState.DISARMED)`:
an unhashable key (list or dict) raises `TypeError`; any other value that is
not a key of the map yields the `DISARMED` default. -/
def stateMapGet (v : PyVal) : Except PyErr AlarmControlPanelState :=
  match v with
  | .list _ => .error .typeError
  | .dict _ => .error .typeError
  | .str s => .ok ((STATE_MAP.lookup s).getD .disarmed)
  | _ => .ok .disarmed

/-- `OlarmAlarmControlPanel._update_alarm_state` from
`alarm_control_panel.py`, returning the `_attr_alarm_state` it assigns:
`DISARMED` without coordinator data, otherwise `STATE_MAP.get` of the area
entry when the index is in range of `device_state.get("areas", [])`, and
`DISARMED` when it is not. -/
def update_alarm_state (data : Option OlarmDeviceData) (area_index : Nat) :
    Except PyErr AlarmControlPanelState :=
  match data with
  | Option.none => .ok .disarmed
  | some d => do
      let areas ← d.device_state.getD "areas" (.list [])
      let n ← pyLen areas
      if area_index < n then do
        let s ← pyIndex areas area_index
        stateMapGet s
      else
        .ok .disarmed

/-- `OlarmAlarmControlPanel._handle_coordinator_update` from
`alarm_control_panel.py`, returning the new `_attr_alarm_state` and whether
`async_write_ha_state` was called: early return when no coordinator data,
otherwise recompute the alarm state and write it exactly when it changed. -/
def panel_handle_coordinator_update (c : Coordinator) (area_index : Nat)
    (previous_state : AlarmControlPanelState) :
    Except PyErr (AlarmControlPanelState × Bool) :=
  match c.data with
  | Option.none => .ok (previous_state, false)
  | some _ => do
      let newState ← update_alarm_state c.data area_index
      .ok (newState, newState != previous_state)

/-- `OlarmAlarmControlPanel._async_send_command` from
`alarm_control_panel.py`: the result is the updated coordinator, the panel's
new `_attr_alarm_state`, and whether the state was written. The body awaits
`self.coordinator.send_command(command, self.device_id, self.area_index + 1)`;
attribute lookup of `send_command` is performed first. -/
def async_send_command (_c : Coordinator) (_command : String) (_device_id : String)
    (_area_index : Nat) : Except PyErr (Coordinator × AlarmControlPanelState × Bool) :=
  match coordinatorGetattr "send_command" with
  | .error e => .error e
  | .ok _m =>
      -- Unreachable for this class: `send_command` is not among
      -- `coordinatorMethodNames`, so the lookup above raises. A resolved
      -- method would be called with the three positional arguments
      -- `(command, device_id, area_index + 1)` here, and the panel state
      -- would then be set to PENDING and written.
      .error .typeError

/-- `async_alarm_disarm` from `alarm_control_panel.py`. -/
def async_alarm_disarm (c : Coordinator) (device_id : String) (area_index : Nat) :
    Except PyErr (Coordinator × AlarmControlPanelState × Bool) :=
  async_send_command c "area_disarm" device_id area_index

/-- `async_alarm_arm_away` from `alarm_control_panel.py`. -/
def async_alarm_arm_away (c : Coordinator) (device_id : String) (area_index : Nat) :
    Except PyErr (Coordinator × AlarmControlPanelState × Bool) :=
  async_send_command c "area_arm" device_id area_index

/-- `async_alarm_arm_home` from `alarm_control_panel.py`. -/
def async_alarm_arm_home (c : Coordinator) (device_id : String) (area_index : Nat) :
    Except PyErr (Coordinator × AlarmControlPanelState × Bool) :=
  async_send_command c "area_stay" device_id area_index

/-- `async_alarm_arm_night` from `alarm_control_panel.py`. -/
def async_alarm_arm_night (c : Coordinator) (device_id : String) (area_index : Nat) :
    Except PyErr (Coordinator × AlarmControlPanelState × Bool) :=
  async_send_command c "area_sleep" device_id area_index

/-!
## `alarm_control_panel_old.py`: the legacy area panels

The legacy panel derives its `_attr_alarm_state` with an `if`/`elif` chain
that covers nine area states and otherwise leaves the previous value in
place. In `__init__` the attribute is first set to `DISARMED`, so the
derivation at construction is the chain applied to a `DISARMED` start.
-/

/-- The `if`/`elif` chain shared by `OlarmAlarmControlPanel.__init__` and
`_handle_mqtt_update` in `alarm_control_panel_old.py`: maps the nine handled
area states and keeps `previous` for anything else. -/
def oldPanelDerive (previous : AlarmControlPanelState) (area_state : String) :
    AlarmControlPanelState :=
  if area_state = "disarm" ∨ area_state = "notready" then .disarmed
  else if area_state = "stay" then .armed_home
  else if area_state = "arm" then .armed_away
  else if area_state = "sleep" then .armed_night
  else if area_state = "alarm" ∨ area_state = "emergency" ∨ area_state = "fire"
          ∨ area_state = "medical" then .triggered
  else previous

/-- The legacy panel's state derivation at construction time
(`__init__` initialises `_attr_alarm_state` to `DISARMED` before the chain). -/
def oldPanelDeriveInit (area_state : String) : AlarmControlPanelState :=
  oldPanelDerive .disarmed area_state

/-- The new implementation's derivation of a platform state from a vendor
area state string: `STATE_MAP.get(s, DISARMED)`. -/
def newPanelDerive (area_state : String) : AlarmControlPanelState :=
  (STATE_MAP.lookup area_state).getD .disarmed

/-!
## `binary_sensor.py`: binary sensors
-/

/-- Whether a value is Python `None`. -/
def PyVal.isNone : PyVal → Bool
  | .none => true
  | _ => false

/-- An `OlarmBinarySensorEntityDescription` from `binary_sensor.py`: the key
and the `value_fn`. (`name_fn` and `unique_id_fn` only format display
strings and are not modelled.) -/
structure OlarmBinarySensorEntityDescription where
  key : String
  value_fn : Coordinator → Nat → Option String → Except PyErr Bool

/-- `value_fn` of the `zone` description: the zone entry equals `"a"`. -/
def zoneValue (c : Coordinator) (index : Nat) (_link_id : Option String) :
    Except PyErr Bool :=
  match c.data with
  | Option.none => .ok false
  | some d =>
      if d.device_state.isNone then .ok false
      else do
        let zones ← d.device_state.getD "zones" (.list [])
        let z ← pyIndex zones index
        .ok (z.eqb (.str "a"))

/-- `value_fn` of the `zone_bypass` description: the zone entry equals `"b"`. -/
def zoneBypassValue (c : Coordinator) (index : Nat) (_link_id : Option String) :
    Except PyErr Bool :=
  match c.data with
  | Option.none => .ok false
  | some d =>
      if d.device_state.isNone then .ok false
      else do
        let zones ← d.device_state.getD "zones" (.list [])
        let z ← pyIndex zones index
        .ok (z.eqb (.str "b"))

/-- `value_fn` of the `ac_power` description. -/
def acPowerValue (c : Coordinator) (_index : Nat) (_link_id : Option String) :
    Except PyErr Bool :=
  match c.data with
  | Option.none => .ok false
  | some d =>
      if d.device_state.isNone then .ok false
      else do
        let v ← d.device_state.getOpt "powerAC"
        .ok (v.eqb (.str "ok"))

/-- `value_fn` of the `ac_power_fence` description: reads
`coord.data.device_fence`, an attribute `OlarmDeviceData` does not declare. -/
def acPowerFenceValue (c : Coordinator) (_index : Nat) (_link_id : Option String) :
    Except PyErr Bool :=
  match c.data with
  | Option.none => .ok false
  | some d => do
      let fence ← getattrDeviceData d "device_fence"
      if fence.isNone then .ok false
      else do
        let v ← fence.getOpt "powerAC"
        .ok (v.eqb (.str "ok"))

/-- `value_fn` of the `link_input` description. -/
def linkInputValue (c : Coordinator) (index : Nat) (link_id : Option String) :
    Except PyErr Bool :=
  match c.data with
  | Option.none => .ok false
  | some d =>
      if d.device_links.isNone then .ok false
      else
        match link_id with
        | Option.none => .ok false
        | some lid => do
            let l ← d.device_links.getD lid (.dict [])
            let inputs ← l.getD "inputs" (.list [])
            let v ← pyIndex inputs index
            .ok (v.eqb (.str "high"))

/-- `value_fn` of the `link_output` description. -/
def linkOutputValue (c : Coordinator) (index : Nat) (link_id : Option String) :
    Except PyErr Bool :=
  match c.data with
  | Option.none => .ok false
  | some d =>
      if d.device_links.isNone then .ok false
      else
        match link_id with
        | Option.none => .ok false
        | some lid => do
            let l ← d.device_links.getD lid (.dict [])
            let outputs ← l.getD "outputs" (.list [])
            let v ← pyIndex outputs index
            .ok (v.eqb (.str "closed"))

/-- `value_fn` of the `relay_output` description. -/
def relayOutputValue (c : Coordinator) (index : Nat) (link_id : Option String) :
    Except PyErr Bool :=
  match c.data with
  | Option.none => .ok false
  | some d =>
      if d.device_links.isNone then .ok false
      else
        match link_id with
        | Option.none => .ok false
        | some lid => do
            let l ← d.device_links.getD lid (.dict [])
            let relays ← l.getD "relays" (.list [])
            let v ← pyIndex relays index
            .ok (v.eqb (.str "latched"))

/-- `value_fn` of the `max_input` description. -/
def maxInputValue (c : Coordinator) (index : Nat) (_link_id : Option String) :
    Except PyErr Bool :=
  match c.data with
  | Option.none => .ok false
  | some d =>
      if d.device_io.isNone then .ok false
      else do
        let inputs ← d.device_io.getD "inputs" (.list [])
        let v ← pyIndex inputs index
        .ok (v.eqb (.str "high"))

/-- `value_fn` of the `max_output` description. -/
def maxOutputValue (c : Coordinator) (index : Nat) (_link_id : Option String) :
    Except PyErr Bool :=
  match c.data with
  | Option.none => .ok false
  | some d =>
      if d.device_io.isNone then .ok false
      else do
        let outputs ← d.device_io.getD "outputs" (.list [])
        let v ← pyIndex outputs index
        .ok (v.eqb (.str "closed"))

/-- `value_fn` of the `fence_zone_off` description (also reads
`coord.data.device_fence`). -/
def fenceZoneOffValue (c : Coordinator) (index : Nat) (_link_id : Option String) :
    Except PyErr Bool :=
  match c.data with
  | Option.none => .ok false
  | some d => do
      let fence ← getattrDeviceData d "device_fence"
      if fence.isNone then .ok false
      else do
        let zones ← fence.getD "zones" (.list [])
        let z ← pyIndex zones index
        let v ← z.getOpt "off"
        .ok (v.eqb (.int 0))

/-- `value_fn` of the `fence_zone_alarm` description. -/
def fenceZoneAlarmValue (c : Coordinator) (index : Nat) (_link_id : Option String) :
    Except PyErr Bool :=
  match c.data with
  | Option.none => .ok false
  | some d => do
      let fence ← getattrDeviceData d "device_fence"
      if fence.isNone then .ok false
      else do
        let zones ← fence.getD "zones" (.list [])
        let z ← pyIndex zones index
        let v ← z.getOpt "alarm"
        .ok (v.eqb (.int 1))

/-- `value_fn` of the `fence_zone_voltbad` description. -/
def fenceZoneVoltbadValue (c : Coordinator) (index : Nat) (_link_id : Option String) :
    Except PyErr Bool :=
  match c.data with
  | Option.none => .ok false
  | some d => do
      let fence ← getattrDeviceData d "device_fence"
      if fence.isNone then .ok false
      else do
        let zones ← fence.getD "zones" (.list [])
        let z ← pyIndex zones index
        let v ← z.getOpt "voltBad"
        .ok (v.eqb (.int 1))

/-- `value_fn` of the `fence_gate_alarmopen` description. -/
def fenceGateAlarmopenValue (c : Coordinator) (index : Nat) (_link_id : Option String) :
    Except PyErr Bool :=
  match c.data with
  | Option.none => .ok false
  | some d => do
      let fence ← getattrDeviceData d "device_fence"
      if fence.isNone then .ok false
      else do
        let gates ← fence.getD "gates" (.list [])
        let g ← pyIndex gates index
        let v ← g.getOpt "alarmOrOpen"
        .ok (v.eqb (.int 1))

/-- `SENSOR_DESCRIPTIONS` from `binary_sensor.py`. -/
def SENSOR_DESCRIPTIONS : List (String × OlarmBinarySensorEntityDescription) :=
  [("zone", ⟨"zone", zoneValue⟩),
   ("zone_bypass", ⟨"zone_bypass", zoneBypassValue⟩),
   ("ac_power", ⟨"ac_power", acPowerValue⟩),
   ("ac_power_fence", ⟨"ac_power_fence", acPowerFenceValue⟩),
   ("link_input", ⟨"link_input", linkInputValue⟩),
   ("link_output", ⟨"link_output", linkOutputValue⟩),
   ("relay_output", ⟨"relay_output", relayOutputValue⟩),
   ("max_input", ⟨"max_input", maxInputValue⟩),
   ("max_output", ⟨"max_output", maxOutputValue⟩),
   ("fence_zone_off", ⟨"fence_zone_off", fenceZoneOffValue⟩),
   ("fence_zone_alarm", ⟨"fence_zone_alarm", fenceZoneAlarmValue⟩),
   ("fence_zone_voltbad", ⟨"fence_zone_voltbad", fenceZoneVoltbadValue⟩),
   ("fence_gate_alarmopen", ⟨"fence_gate_alarmopen", fenceGateAlarmopenValue⟩)]

/-- `OlarmBinarySensor._handle_coordinator_update` from `binary_sensor.py`,
returning the new `_attr_is_on`, the new `sensor_state`, and whether
`async_write_ha_state` was called: early return when no coordinator data,
otherwise recompute `_attr_is_on` via the description's `value_fn`, refresh
`sensor_state` for zone sensors, and write exactly when `_attr_is_on`
changed. The `sensor_state` refresh is the inline block at the end of the
Python method, split out here as `sensor_state_refresh`: for `zone` /
`zone_bypass` sensors with a non-`None` `device_state` it re-reads
`device_state.get("zones", [])[sensor_index]` (an unguarded indexing), and
otherwise keeps the previous value. -/
def sensor_state_refresh (key : String) (d : OlarmDeviceData) (sensor_index : Nat)
    (previous_sensor_state : PyVal) : Except PyErr PyVal :=
  if key == "zone" || key == "zone_bypass" then
    if d.device_state.isNone then pure previous_sensor_state
    else do
      let zones ← d.device_state.getD "zones" (.list [])
      pyIndex zones sensor_index
  else
    pure previous_sensor_state

def sensor_handle_coordinator_update (c : Coordinator)
    (desc : OlarmBinarySensorEntityDescription) (sensor_index : Nat)
    (link_id : Option String) (previous_is_on : Bool)
    (previous_sensor_state : PyVal) : Except PyErr (Bool × PyVal × Bool) :=
  match c.data with
  | Option.none => .ok (previous_is_on, previous_sensor_state, false)
  | some d => do
      let v ← desc.value_fn c sensor_index link_id
      let st ← sensor_state_refresh desc.key d sensor_index previous_sensor_state
      .ok (v, st, v != previous_is_on)

/-- The constructor arguments of an `OlarmBinarySensor` created during
platform setup: description key, index, initial state, and label. -/
structure SensorInit where
  key : String
  index : Nat
  state : PyVal
  label : PyVal

/-- Python iteration (`enumerate(...)`) over a value: only lists are
iterated in the fence loader; other values raise `TypeError`. -/
def asPyList : PyVal → Except PyErr (List PyVal)
  | .list xs => .ok xs
  | _ => .error .typeError

/-- `load_fence_sensors` from `binary_sensor.py`: reads
`coordinator.data.device_fence` and builds three sensors per fence zone and
one per fence gate. -/
def load_fence_sensors (data : OlarmDeviceData) : Except PyErr (List SensorInit) := do
  let fence ← getattrDeviceData data "device_fence"
  let zonesVal ← fence.getD "zones" (.list [])
  let fence_zones ← asPyList zonesVal
  let zoneInits ← fence_zones.enum.mapM (fun p => do
      let off ← p.2.getD "off" (.int 1)
      let al ← p.2.getD "alarm" (.int 0)
      let vb ← p.2.getD "voltBad" (.int 0)
      let nm ← p.2.getD "name" (.str "")
      pure [SensorInit.mk "fence_zone_off" p.1 off nm,
            SensorInit.mk "fence_zone_alarm" p.1 al nm,
            SensorInit.mk "fence_zone_voltbad" p.1 vb nm])
  let gatesVal ← fence.getD "gates" (.list [])
  let fence_gates ← asPyList gatesVal
  let gateInits ← fence_gates.enum.mapM (fun p => do
      let ao ← p.2.getD "alarmOrOpen" (.int 0)
      let nm ← p.2.getD "name" (.str "")
      pure [SensorInit.mk "fence_gate_alarmopen" p.1 ao nm])
  pure (zoneInits.flatten ++ gateInits.flatten)

/-!
## `button.py`: buttons
-/

/-- An `OlarmButtonEntityDescription` from `button.py`: the key and the
`press_fn`. (`name_fn` and `unique_id_fn` only format display strings and
are not modelled.) -/
structure OlarmButtonEntityDescription where
  key : String
  press_fn : Coordinator → String → Nat → Option String → Coordinator

/-- The `zone_bypass` button description. -/
def zoneBypassDesc : OlarmButtonEntityDescription :=
  ⟨"zone_bypass", fun coord device_id index _ => coord.send_zone_bypass device_id index⟩

/-- The `zone_unbypass` button description. -/
def zoneUnbypassDesc : OlarmButtonEntityDescription :=
  ⟨"zone_unbypass", fun coord device_id index _ => coord.send_zone_unbypass device_id index⟩

/-- The `pgm_open` button description. -/
def pgmOpenDesc : OlarmButtonEntityDescription :=
  ⟨"pgm_open", fun coord device_id index _ => coord.send_pgm_open device_id index⟩

/-- The `pgm_close` button description. -/
def pgmCloseDesc : OlarmButtonEntityDescription :=
  ⟨"pgm_close", fun coord device_id index _ => coord.send_pgm_close device_id index⟩

/-- The `pgm_pulse` button description. -/
def pgmPulseDesc : OlarmButtonEntityDescription :=
  ⟨"pgm_pulse", fun coord device_id index _ => coord.send_pgm_pulse device_id index⟩

/-- The `ukey` button description. -/
def ukeyDesc : OlarmButtonEntityDescription :=
  ⟨"ukey", fun coord device_id index _ => coord.send_ukey_activate device_id index⟩

/-- The `link_output_open` button description. -/
def linkOutputOpenDesc : OlarmButtonEntityDescription :=
  ⟨"link_output_open", fun coord device_id index link_id =>
    coord.send_link_output_open device_id link_id index⟩

/-- The `link_output_close` button description. -/
def linkOutputCloseDesc : OlarmButtonEntityDescription :=
  ⟨"link_output_close", fun coord device_id index link_id =>
    coord.send_link_output_close device_id link_id index⟩

/-- The `link_output_pulse` button description. -/
def linkOutputPulseDesc : OlarmButtonEntityDescription :=
  ⟨"link_output_pulse", fun coord device_id index link_id =>
    coord.send_link_output_pulse device_id link_id index⟩

/-- The `link_relay_unlatch` button description. -/
def linkRelayUnlatchDesc : OlarmButtonEntityDescription :=
  ⟨"link_relay_unlatch", fun coord device_id index link_id =>
    coord.send_link_relay_unlatch device_id link_id index⟩

/-- The `link_relay_latch` button description. -/
def linkRelayLatchDesc : OlarmButtonEntityDescription :=
  ⟨"link_relay_latch", fun coord device_id index link_id =>
    coord.send_link_relay_latch device_id link_id index⟩

/-- The `link_relay_pulse` button description. -/
def linkRelayPulseDesc : OlarmButtonEntityDescription :=
  ⟨"link_relay_pulse", fun coord device_id index link_id =>
    coord.send_link_relay_pulse device_id link_id index⟩

/-- The `max_output_open` button description. -/
def maxOutputOpenDesc : OlarmButtonEntityDescription :=
  ⟨"max_output_open", fun coord device_id index _ => coord.send_max_output_open device_id index⟩

/-- The `max_output_close` button description. -/
def maxOutputCloseDesc : OlarmButtonEntityDescription :=
  ⟨"max_output_close", fun coord device_id index _ => coord.send_max_output_close device_id index⟩

/-- The `max_output_pulse` button description. -/
def maxOutputPulseDesc : OlarmButtonEntityDescription :=
  ⟨"max_output_pulse", fun coord device_id index _ => coord.send_max_output_pulse device_id index⟩

/-- `BUTTON_DESCRIPTIONS` from `button.py`. -/
def BUTTON_DESCRIPTIONS : List (String × OlarmButtonEntityDescription) :=
  [("zone_bypass", zoneBypassDesc),
   ("zone_unbypass", zoneUnbypassDesc),
   ("pgm_open", pgmOpenDesc),
   ("pgm_close", pgmCloseDesc),
   ("pgm_pulse", pgmPulseDesc),
   ("ukey", ukeyDesc),
   ("link_output_open", linkOutputOpenDesc),
   ("link_output_close", linkOutputCloseDesc),
   ("link_output_pulse", linkOutputPulseDesc),
   ("link_relay_unlatch", linkRelayUnlatchDesc),
   ("link_relay_latch", linkRelayLatchDesc),
   ("link_relay_pulse", linkRelayPulseDesc),
   ("max_output_open", maxOutputOpenDesc),
   ("max_output_close", maxOutputCloseDesc),
   ("max_output_pulse", maxOutputPulseDesc)]

/-- `OlarmButton.async_press` from `button.py`: call the description's
`press_fn` with the coordinator, device id, button index and link id. -/
def async_press (c : Coordinator) (desc : OlarmButtonEntityDescription)
    (device_id : String) (button_index : Nat) (link_id : Option String) :
    Coordinator :=
  desc.press_fn c device_id button_index link_id

/-- The outbound API call named by a button description key, as the spec
describes it: zone bypass/unbypass, PGM open/close/pulse, utility key
activate, LINK output/relay commands carrying the link id, and MAX output
commands, each with the button's device id and index. -/
def buttonApiCall (key : String) (device_id : String) (index : Nat)
    (link_id : Option String) : Option ClientCall :=
  match key with
  | "zone_bypass" => some (.zoneBypass device_id index)
  | "zone_unbypass" => some (.zoneUnbypass device_id index)
  | "pgm_open" => some (.pgmOpen device_id index)
  | "pgm_close" => some (.pgmClose device_id index)
  | "pgm_pulse" => some (.pgmPulse device_id index)
  | "ukey" => some (.ukeyActivate device_id index)
  | "link_output_open" => some (.linkOutputOpen device_id link_id index)
  | "link_output_close" => some (.linkOutputClose device_id link_id index)
  | "link_output_pulse" => some (.linkOutputPulse device_id link_id index)
  | "link_relay_unlatch" => some (.linkRelayUnlatch device_id link_id index)
  | "link_relay_latch" => some (.linkRelayLatch device_id link_id index)
  | "link_relay_pulse" => some (.linkRelayPulse device_id link_id index)
  | "max_output_open" => some (.maxOutputOpen device_id index)
  | "max_output_close" => some (.maxOutputClose device_id index)
  | "max_output_pulse" => some (.maxOutputPulse device_id index)
  | _ => Option.none

/-!
## Theorems
-/

/-- C4: `_async_update_data` raises the framework's `UpdateFailed` signal if
and only if the HTTP client raises `OlarmFlowClientApiError`; on success it
returns an `OlarmDeviceData` whose `device_name` is the JSON `deviceName`
value or `"Olarm Device"` when that value is missing or falsy, and whose six
dict fields are the corresponding JSON values or empty dicts when missing or
falsy. -/
theorem initial_fetch_update_failed_iff_api_error :
    (∀ r : FetchResult, async_update_data r = .updateFailed ↔ r = .apiError) ∧
    (∀ device : PyDict,
      async_update_data (.ok device) = .success
        { device_name :=
            if (pyDictGetOpt device "deviceName").truthy then pyDictGetOpt device "deviceName"
            else .str "Olarm Device"
          device_state :=
            if (pyDictGetOpt device "deviceState").truthy then pyDictGetOpt device "deviceState"
            else .dict []
          device_links :=
            if (pyDictGetOpt device "deviceLinks").truthy then pyDictGetOpt device "deviceLinks"
            else .dict []
          device_io :=
            if (pyDictGetOpt device "deviceIO").truthy then pyDictGetOpt device "deviceIO"
            else .dict []
          device_profile :=
            if (pyDictGetOpt device "deviceProfile").truthy then pyDictGetOpt device "deviceProfile"
            else .dict []
          device_profile_links :=
            if (pyDictGetOpt device "deviceProfileLinks").truthy then pyDictGetOpt device "deviceProfileLinks"
            else .dict []
          device_profile_io :=
            if (pyDictGetOpt device "deviceProfileIO").truthy then pyDictGetOpt device "deviceProfileIO"
            else .dict [] }) := by
  constructor
  · intro r
    cases r <;> simp [async_update_data]
  · intro device
    simp [async_update_data, pyOr]

/-- C3: the panel's command path `_async_send_command` looks up a method
named `send_command` on the coordinator; no class in the repository defines
one, so every user arm/disarm action raises `AttributeError` instead of
performing its API call and setting the `PENDING` state. -/
theorem panel_commands_raise_attribute_error :
    coordinatorGetattr "send_command" = .error .attributeError ∧
    (∀ (c : Coordinator) (device_id : String) (area_index : Nat),
      async_alarm_disarm c device_id area_index = .error .attributeError ∧
      async_alarm_arm_away c device_id area_index = .error .attributeError ∧
      async_alarm_arm_home c device_id area_index = .error .attributeError ∧
      async_alarm_arm_night c device_id area_index = .error .attributeError) := by
  refine ⟨rfl, ?_⟩
  intro c device_id area_index
  refine ⟨rfl, rfl, rfl, rfl⟩

/-- C9: binary-sensor platform setup is not total over `OlarmDeviceData`:
`load_fence_sensors` and the `ac_power_fence` value function read a
`device_fence` attribute that `OlarmDeviceData` does not declare, so they
raise `AttributeError` on every value of the type. -/
theorem fence_sensor_setup_always_raises :
    (∀ d : OlarmDeviceData, load_fence_sensors d = .error .attributeError) ∧
    (∀ (d : OlarmDeviceData) (pub : List OlarmDeviceData) (cal : List ClientCall)
       (i : Nat) (lid : Option String),
      acPowerFenceValue ⟨some d, pub, cal⟩ i lid = .error .attributeError) ∧
    ("device_fence" ∈ olarmDeviceDataFields) = False := by
  refine ⟨fun d => rfl, fun d pub cal i lid => rfl, by decide⟩

/-- C8 counterexample: on the vendor area state `"partarm1"` the legacy
panel derivation (which starts from `DISARMED` and has no branch for it)
and the new `STATE_MAP` derivation disagree. -/
theorem legacy_new_derivation_differs :
    oldPanelDeriveInit "partarm1" = .disarmed ∧
    newPanelDerive "partarm1" = .armed_custom_bypass ∧
    oldPanelDeriveInit "partarm1" ≠ newPanelDerive "partarm1" := by
  refine ⟨by decide, by decide, by decide⟩

/-- C8 amended: on every vendor area state string the legacy chain handles
(`disarm`, `notready`, `stay`, `arm`, `sleep`, `alarm`, `emergency`, `fire`,
`medical`), the legacy implementation — from any previous state — and the
new `STATE_MAP` derivation produce the same platform alarm state; the legacy
implementation diverges only on the states it does not handle (the thirteen
newly added `STATE_MAP` keys, and unknown strings when the previous state is
not `DISARMED`), where it keeps its previous state. -/
theorem legacy_new_derivation_agrees_on_handled
    (s : String)
    (h : s ∈ ["disarm", "notready", "stay", "arm", "sleep",
              "alarm", "emergency", "fire", "medical"]) :
    ∀ prev : AlarmControlPanelState, oldPanelDerive prev s = newPanelDerive s := by
  fin_cases h <;> intro prev <;> rfl

/-- Witness for the amended C8 theorem at the concrete state `"arm"`. -/
theorem legacy_new_derivation_agrees_on_handled_witness :
    oldPanelDerive .disarmed "arm" = newPanelDerive "arm" :=
  legacy_new_derivation_agrees_on_handled "arm" (by decide) .disarmed

/-- C1: for every MQTT payload, when cached data exists
`async_update_from_mqtt` replaces `device_state` / `device_links` /
`device_io` with the payload value exactly when the payload contains
`deviceState` / `deviceLinks` / `deviceIO` respectively, leaves every other
field unchanged, and republishes the struct to subscribers if and only if at
least one of those keys is present; with no cached data it changes nothing
and publishes nothing. -/
theorem mqtt_merge_behavior :
    (∀ (d : OlarmDeviceData) (pub : List OlarmDeviceData) (cal : List ClientCall)
       (payload : PyDict),
      ∃ d' : OlarmDeviceData,
        async_update_from_mqtt ⟨some d, pub, cal⟩ payload =
          { data := some d'
            published :=
              if pyDictContains payload "deviceState" || pyDictContains payload "deviceLinks"
                 || pyDictContains payload "deviceIO" then pub ++ [d'] else pub
            calls := cal } ∧
        d'.device_state =
          (if pyDictContains payload "deviceState" then pyDictItem payload "deviceState"
           else d.device_state) ∧
        d'.device_links =
          (if pyDictContains payload "deviceLinks" then pyDictItem payload "deviceLinks"
           else d.device_links) ∧
        d'.device_io =
          (if pyDictContains payload "deviceIO" then pyDictItem payload "deviceIO"
           else d.device_io) ∧
        d'.device_name = d.device_name ∧
        d'.device_profile = d.device_profile ∧
        d'.device_profile_links = d.device_profile_links ∧
        d'.device_profile_io = d.device_profile_io) ∧
    (∀ (pub : List OlarmDeviceData) (cal : List ClientCall) (payload : PyDict),
      async_update_from_mqtt ⟨Option.none, pub, cal⟩ payload =
        ⟨Option.none, pub, cal⟩) := by
  constructor
  · intro d pub cal payload
    by_cases hS : pyDictContains payload "deviceState" = true <;>
      by_cases hL : pyDictContains payload "deviceLinks" = true <;>
        by_cases hIO : pyDictContains payload "deviceIO" = true <;>
          simp [async_update_from_mqtt, async_set_updated_data, hS, hL, hIO]
  · intro pub cal payload
    rfl

/-- C2: the panel's displayed alarm state is `STATE_MAP` applied to the
last-received vendor area state string at the panel's area index (with
`"arm"` mapping to armed-away, `"stay"` to armed-home, `"sleep"` to
armed-night and `"alarm"`/`"emergency"`/`"fire"`/`"medical"` to triggered),
and is `DISARMED` when the string is not a `STATE_MAP` key, when the index
is beyond the areas list, or when no coordinator data exists. -/
theorem panel_state_is_state_map_of_area
    (d : OlarmDeviceData) (i : Nat) (ss : List String)
    (h : d.device_state.getD "areas" (.list []) = .ok (.list (ss.map PyVal.str))) :
    update_alarm_state (some d) i =
      .ok (match ss.get? i with
           | some s => (STATE_MAP.lookup s).getD .disarmed
           | Option.none => .disarmed) ∧
    update_alarm_state Option.none i = .ok .disarmed ∧
    newPanelDerive "arm" = .armed_away ∧
    newPanelDerive "stay" = .armed_home ∧
    newPanelDerive "sleep" = .armed_night ∧
    newPanelDerive "alarm" = .triggered ∧
    newPanelDerive "emergency" = .triggered ∧
    newPanelDerive "fire" = .triggered ∧
    newPanelDerive "medical" = .triggered := by
  refine ⟨?_, rfl, rfl, rfl, rfl, rfl, rfl, rfl, rfl⟩
  by_cases hi : i < ss.length
  · simp [update_alarm_state, h, bind, Except.bind, pyLen, pyIndex, stateMapGet,
      hi, List.get?_eq_get hi, List.getElem_map]
  · simp [update_alarm_state, h, bind, Except.bind, pyLen, hi,
      List.getElem?_eq_none (Nat.le_of_not_lt hi)]

/-- Witness for C2 at a one-area device in state `"arm"`. -/
theorem panel_state_is_state_map_of_area_witness :
    update_alarm_state
        (some { device_name := .str "Olarm Device"
                device_state := .dict [("areas", .list [.str "arm"])] }) 0 =
      .ok .armed_away := by
  have h := panel_state_is_state_map_of_area
    { device_name := .str "Olarm Device"
      device_state := .dict [("areas", .list [.str "arm"])] } 0 ["arm"] rfl
  simpa using h.1

/-- C5: for every zone index within the cached `zones` list, the zone
sensor's value is on if and only if the entry at that index is `"a"`, and
the zone-bypass sensor's value is on if and only if that entry is `"b"`. -/
theorem zone_sensor_on_iff
    (d : OlarmDeviceData) (pub : List OlarmDeviceData) (cal : List ClientCall)
    (i : Nat) (lid : Option String) (zs : List String)
    (h : d.device_state.getD "zones" (.list []) = .ok (.list (zs.map PyVal.str)))
    (hi : i < zs.length) :
    (zoneValue ⟨some d, pub, cal⟩ i lid = .ok true ↔ zs.get ⟨i, hi⟩ = "a") ∧
    (zoneBypassValue ⟨some d, pub, cal⟩ i lid = .ok true ↔ zs.get ⟨i, hi⟩ = "b") := by
  have hnn : d.device_state.isNone = false := by
    cases hds : d.device_state <;> try rfl
    rw [hds] at h
    simp [PyVal.getD] at h
  constructor <;>
    simp [zoneValue, zoneBypassValue, hnn, h, bind, Except.bind, pyIndex, hi,
      List.getElem_map, PyVal.eqb]

/-- Witness for C5 on a device whose zones are `["a", "b"]` at index 0. -/
theorem zone_sensor_on_iff_witness :
    (zoneValue
        ⟨some { device_name := .str "n"
                device_state := .dict [("zones", .list [.str "a", .str "b"])] },
         [], []⟩ 0 Option.none = .ok true ↔
      (["a", "b"] : List String).get ⟨0, by decide⟩ = "a") ∧
    (zoneBypassValue
        ⟨some { device_name := .str "n"
                device_state := .dict [("zones", .list [.str "a", .str "b"])] },
         [], []⟩ 0 Option.none = .ok true ↔
      (["a", "b"] : List String).get ⟨0, by decide⟩ = "b") :=
  zone_sensor_on_iff
    { device_name := .str "n"
      device_state := .dict [("zones", .list [.str "a", .str "b"])] }
    [] [] 0 Option.none ["a", "b"] rfl (by decide)

/-- C6: pressing an Olarm button makes exactly the single outbound API call
named by its description's key, with the button's device id, its index and
(for LINK buttons) its link id, and modifies no other coordinator state. -/
theorem button_press_is_single_named_call
    (key : String) (desc : OlarmButtonEntityDescription)
    (hmem : (key, desc) ∈ BUTTON_DESCRIPTIONS)
    (c : Coordinator) (device_id : String) (index : Nat) (link_id : Option String) :
    (async_press c desc device_id index link_id).data = c.data ∧
    (async_press c desc device_id index link_id).published = c.published ∧
    ∃ call : ClientCall,
      buttonApiCall key device_id index link_id = some call ∧
      (async_press c desc device_id index link_id).calls = c.calls ++ [call] := by
  fin_cases hmem <;> exact ⟨rfl, rfl, _, rfl, rfl⟩

/-- Witness for C6 on the `zone_bypass` button. -/
theorem button_press_is_single_named_call_witness :
    (async_press ⟨Option.none, [], []⟩ zoneBypassDesc "dev" 3 Option.none).data =
      (⟨Option.none, [], []⟩ : Coordinator).data ∧
    (async_press ⟨Option.none, [], []⟩ zoneBypassDesc "dev" 3 Option.none).published =
      (⟨Option.none, [], []⟩ : Coordinator).published ∧
    ∃ call : ClientCall,
      buttonApiCall "zone_bypass" "dev" 3 Option.none = some call ∧
      (async_press ⟨Option.none, [], []⟩ zoneBypassDesc "dev" 3 Option.none).calls =
        (⟨Option.none, [], []⟩ : Coordinator).calls ++ [call] :=
  button_press_is_single_named_call "zone_bypass" zoneBypassDesc
    (by simp [BUTTON_DESCRIPTIONS]) ⟨Option.none, [], []⟩ "dev" 3 Option.none

/-- `async_update_from_mqtt` never touches the API-call log. -/
theorem mqtt_calls_eq (c : Coordinator) (p : PyDict) :
    (async_update_from_mqtt c p).calls = c.calls := by
  rcases c with ⟨data, pub, cal⟩
  cases data with
  | none => rfl
  | some d =>
      simp only [async_update_from_mqtt, async_set_updated_data]
      split <;> rfl

/-- The coordinator's command methods leave the cached data untouched. -/
theorem runCommand_data_eq (c : Coordinator) (cmd : CoordinatorCommand) :
    (runCommand c cmd).data = c.data := by
  cases cmd <;> rfl

/-- The coordinator's command methods never call the HTTP fetch. -/
theorem runCommand_fetchCount_eq (c : Coordinator) (cmd : CoordinatorCommand) :
    fetchCount (runCommand c cmd) = fetchCount c := by
  cases cmd <;>
    simp [runCommand, fetchCount, Coordinator.send_zone_bypass,
      Coordinator.send_zone_unbypass, Coordinator.send_pgm_open,
      Coordinator.send_pgm_close, Coordinator.send_pgm_pulse,
      Coordinator.send_ukey_activate, Coordinator.send_link_output_open,
      Coordinator.send_link_output_close, Coordinator.send_link_output_pulse,
      Coordinator.send_link_relay_unlatch, Coordinator.send_link_relay_latch,
      Coordinator.send_link_relay_pulse, Coordinator.send_max_output_open,
      Coordinator.send_max_output_close, Coordinator.send_max_output_pulse,
      Coordinator.send_area_disarm, Coordinator.send_area_arm,
      Coordinator.send_area_stay, Coordinator.send_area_sleep,
      List.countP_append, List.countP_cons, ClientCall.isGetDevice]

/-- C7: the coordinator is constructed with no update interval, no sequence
of post-setup events (MQTT messages or command invocations) ever adds an
HTTP device fetch to the call log, and any post-setup event that changes the
cached struct is an MQTT message handled by `async_update_from_mqtt`. -/
theorem no_fetch_after_setup :
    update_interval = Option.none ∧
    (∀ (c : Coordinator) (events : List CoordinatorEvent),
      fetchCount (coordinatorRun c events) = fetchCount c) ∧
    (∀ (c : Coordinator) (e : CoordinatorEvent),
      (coordinatorStep c e).data ≠ c.data → ∃ payload, e = .mqttMessage payload) := by
  refine ⟨rfl, ?_, ?_⟩
  · intro c events
    induction events generalizing c with
    | nil => rfl
    | cons e es ih =>
        have hstep : fetchCount (coordinatorStep c e) = fetchCount c := by
          cases e with
          | mqttMessage p =>
              show fetchCount (async_update_from_mqtt c p) = fetchCount c
              unfold fetchCount
              rw [mqtt_calls_eq]
          | command cmd => exact runCommand_fetchCount_eq c cmd
        calc fetchCount (coordinatorRun c (e :: es))
            = fetchCount (coordinatorRun (coordinatorStep c e) es) := rfl
          _ = fetchCount (coordinatorStep c e) := ih _
          _ = fetchCount c := hstep
  · intro c e h
    cases e with
    | mqttMessage p => exact ⟨p, rfl⟩
    | command cmd => exact absurd (runCommand_data_eq c cmd) h

/-- Witness for C7: a `deviceState` MQTT message does change the cached
struct, and the theorem recognises it as an MQTT event. -/
theorem no_fetch_after_setup_witness :
    ∃ payload,
      CoordinatorEvent.mqttMessage [("deviceState", PyVal.str "x")] =
        CoordinatorEvent.mqttMessage payload :=
  no_fetch_after_setup.2.2
    ⟨some { device_name := .str "n" }, [], []⟩
    (.mqttMessage [("deviceState", .str "x")])
    (by
      intro hcontra
      simp [coordinatorStep, async_update_from_mqtt, async_set_updated_data,
        pyDictContains, pyDictGet, pyDictItem, List.find?] at hcontra)

/-- C10: for alarm panels and binary sensors, a coordinator update writes
the entity's platform state if and only if the newly derived value differs
from the previously displayed one. -/
theorem entity_write_iff_value_changed :
    (∀ (c : Coordinator) (i : Nat) (prev newState : AlarmControlPanelState) (w : Bool),
      panel_handle_coordinator_update c i prev = .ok (newState, w) →
      (w = true ↔ newState ≠ prev)) ∧
    (∀ (c : Coordinator) (desc : OlarmBinarySensorEntityDescription) (i : Nat)
       (lid : Option String) (prev : Bool) (pstate st : PyVal) (v : Bool) (w : Bool),
      sensor_handle_coordinator_update c desc i lid prev pstate = .ok (v, st, w) →
      (w = true ↔ v ≠ prev)) := by
  constructor
  · intro c i prev newState w h
    rcases c with ⟨data, pub, cal⟩
    cases data with
    | none =>
        simp only [panel_handle_coordinator_update, Except.ok.injEq, Prod.mk.injEq] at h
        rcases h with ⟨rfl, rfl⟩
        simp
    | some d =>
        simp only [panel_handle_coordinator_update] at h
        cases hu : update_alarm_state (some d) i with
        | error e => rw [hu] at h; simp [bind, Except.bind] at h
        | ok s =>
            rw [hu] at h
            simp only [bind, Except.bind, Except.ok.injEq, Prod.mk.injEq] at h
            rcases h with ⟨rfl, rfl⟩
            simp [bne_iff_ne]
  · intro c desc i lid prev pstate st v w h
    rcases c with ⟨data, pub, cal⟩
    cases data with
    | none =>
        simp only [sensor_handle_coordinator_update, Except.ok.injEq, Prod.mk.injEq] at h
        rcases h with ⟨rfl, rfl, rfl⟩
        simp
    | some d =>
        simp only [sensor_handle_coordinator_update] at h
        cases hv : desc.value_fn ⟨some d, pub, cal⟩ i lid with
        | error e => rw [hv] at h; simp [bind, Except.bind] at h
        | ok v0 =>
            rw [hv] at h
            simp only [bind, Except.bind] at h
            cases hst : sensor_state_refresh desc.key d i pstate with
            | error e => rw [hst] at h; simp at h
            | ok st0 =>
                rw [hst] at h
                simp only [Except.ok.injEq, Prod.mk.injEq] at h
                rcases h with ⟨rfl, rfl, rfl⟩
                simp [bne_iff_ne]

/-- Witness for C10 on a panel with no coordinator data: the state is kept
and no write happens. -/
theorem entity_write_iff_value_changed_witness :
    (false = true) ↔ (AlarmControlPanelState.disarmed ≠ .disarmed) :=
  entity_write_iff_value_changed.1 ⟨Option.none, [], []⟩ 0 .disarmed .disarmed false rfl
